import Mathlib

/-!
Verification of the Measurement Derivation & Water-Balance Engine of the
aqua-weight backend.  The definitions below are a shallow embedding of the
Python source: database tables become lists of rows, SQL queries become
list functions, and each helper (`derive_weights`, `calculate_water_loss`,
`calculate_water_retained`, `compute_frequency_days`, the calibration
corrector and the frequency-and-projection step of the plants listing) is
translated statement by statement.  Timestamps are integers measured in milliseconds (the source
normalizes every timestamp to whole seconds plus a caller-assigned
millisecond tiebreak slot, so the time domain is discrete); gram weights
are integers; nullable columns are `Option` values.
-/

namespace AquaWeight

/-- One row of the `plants_measurements` table, restricted to a single
plant (every query in the source is scoped to one `plant_id`). -/
structure Row where
  id : Nat
  measured_at : ℤ
  measured_weight_g : Option ℤ
  last_dry_weight_g : Option ℤ
  last_wet_weight_g : Option ℤ
  water_added_g : Option ℤ
  water_loss_total_pct : Option ℚ
  water_loss_total_g : Option ℤ
  water_loss_day_pct : Option ℚ
  water_loss_day_g : Option ℤ
  deriving DecidableEq, Repr

/-- The loose Watering predicate used by the frequency statistics:
`measured_weight_g IS NULL AND water_loss_total_pct = 0`. -/
def isLooseWatering (r : Row) : Bool :=
  r.measured_weight_g.isNone && (r.water_loss_total_pct == some 0)

/-- The strict Watering predicate of `get_last_watering_event`:
weight null, total_pct = 0, the other three loss fields null, both
baselines present and `water_added_g > 0`. -/
def isStrictWatering (r : Row) : Bool :=
  r.measured_weight_g.isNone
    && (r.water_loss_total_pct == some 0)
    && r.water_loss_total_g.isNone
    && r.water_loss_day_pct.isNone
    && r.water_loss_day_g.isNone
    && r.last_dry_weight_g.isSome
    && r.last_wet_weight_g.isSome
    && (match r.water_added_g with
        | some w => decide (0 < w)
        | none => false)

/-- The Repotting predicate of `get_last_repotting_event`: weight,
last_dry and water_added present; last_wet and all four loss fields null. -/
def isRepotting (r : Row) : Bool :=
  r.measured_weight_g.isSome
    && r.last_dry_weight_g.isSome
    && r.water_added_g.isSome
    && r.last_wet_weight_g.isNone
    && r.water_loss_total_pct.isNone
    && r.water_loss_total_g.isNone
    && r.water_loss_day_pct.isNone
    && r.water_loss_day_g.isNone

/-- Model of `SELECT ... WHERE p ORDER BY measured_at DESC LIMIT 1`:
the latest row (by `measured_at`) satisfying `p`; on equal timestamps the
earlier list entry is kept, matching an arbitrary-but-fixed SQL tie-break. -/
def latestStep (p : Row → Bool) (acc : Option Row) (r : Row) : Option Row :=
  if p r then
    match acc with
    | none => some r
    | some a => if a.measured_at < r.measured_at then some r else some a
  else acc

def latestBy (p : Row → Bool) (db : List Row) : Option Row :=
  db.foldl (latestStep p) none

/-- The `water_added_g` of the last strict Watering event, default 0 when
none exists (`last_watering_event["water_added_g"] if ... else 0`). -/
def lastWateringAdded (db : List Row) : ℤ :=
  match latestBy isStrictWatering db with
  | some e => e.water_added_g.getD 0
  | none => 0

/-- Model of the previous-row lookup of `derive_weights`:
`measured_at < cutoff`, optionally excluding one id, latest first. -/
def prevRowBefore (db : List Row) (cutoff : ℤ) (excludeId : Option Nat) : Option Row :=
  latestBy
    (fun r =>
      decide (r.measured_at < cutoff)
        && (match excludeId with
            | some e => decide (r.id ≠ e)
            | none => true))
    db

/-- Result record of `derive_weights` (`DerivedWeights` in the source). -/
structure DerivedWeights where
  last_dry_weight_g : Option ℤ
  last_wet_weight_g : Option ℤ
  water_added_g : ℤ
  prev_measured_weight : Option ℤ
  last_watering_water_added : ℤ
  deriving DecidableEq, Repr

/-- Embedding of `derive_weights` from `services/measurements.py`:
derives the effective dry/wet baselines and water-added from the payload,
the previous row and the last strict Watering event. -/
def derive_weights (db : List Row) (measured_at : ℤ)
    (measured_weight_g last_dry_weight_g last_wet_weight_g payload_water_added_g : Option ℤ)
    (excludeId : Option Nat) : DerivedWeights :=
  let lwa := lastWateringAdded db
  let prev := prevRowBefore db measured_at excludeId
  let prev_measured_weight := match prev with | some p => p.measured_weight_g | none => none
  let prev_last_dry := match prev with | some p => p.last_dry_weight_g | none => none
  let prev_last_wet := match prev with | some p => p.last_wet_weight_g | none => none
  -- dry baseline: explicit payload, else previous weight, else own weight, else previous dry
  let ld_local : Option ℤ :=
    match last_dry_weight_g with
    | some v => some v
    | none =>
      match prev_measured_weight with
      | some p => some p
      | none =>
        match measured_weight_g with
        | some w => some w
        | none => prev_last_dry
  -- wet baseline: explicit payload, else synthesize dry + last watering added, else carry
  let lw_local0 : Option ℤ :=
    match last_wet_weight_g with
    | some v => some v
    | none =>
      if prev_last_wet = none ∧ ld_local ≠ none then
        some (ld_local.getD 0 + lwa)
      else prev_last_wet
  -- initial water added
  let wa0 : ℤ :=
    match payload_water_added_g with
    | some p =>
      if 0 < p then p
      else if measured_weight_g = none then lw_local0.getD 0 - ld_local.getD 0 else lwa
    | none =>
      if measured_weight_g = none then lw_local0.getD 0 - ld_local.getD 0 else lwa
  -- watering-event refinement / weighing override
  let step : ℤ × Option ℤ :=
    if measured_weight_g = none then
      if (match last_wet_weight_g with | some v => decide (0 < v) | none => false)
          && ld_local.isSome then
        (lw_local0.getD 0 - ld_local.getD 0, lw_local0)
      else
        if (match payload_water_added_g with | some p => decide (0 < p) | none => false)
            && (match ld_local with | some d => decide (0 < d) | none => false) then
          (payload_water_added_g.getD 0,
            if last_wet_weight_g = none then
              some (payload_water_added_g.getD 0 + ld_local.getD 0)
            else lw_local0)
        else (wa0, lw_local0)
    else (lwa, lw_local0)
  { last_dry_weight_g := ld_local
    last_wet_weight_g := step.2
    water_added_g := if step.1 = 0 then 0 else step.1
    prev_measured_weight := prev_measured_weight
    last_watering_water_added := lwa }

/-- Python's `round` to an integer: round half to even (banker's rounding),
as used by `int(round(freq))` and `round(x, 2)` in the source. -/
def pyRound (q : ℚ) : ℤ :=
  if q - ⌊q⌋ < 1/2 then ⌊q⌋
  else if 1/2 < q - ⌊q⌋ then ⌊q⌋ + 1
  else if ⌊q⌋ % 2 = 0 then ⌊q⌋ else ⌊q⌋ + 1

/-- Python's `round(x, 2)` over the rationals. -/
def pyRound2 (q : ℚ) : ℚ := (pyRound (q * 100) : ℚ) / 100

/-- Result record of `calculate_water_loss` (`WaterLossCalculation`). -/
structure WaterLossCalculation where
  water_loss_day_g : Option ℤ := none
  water_loss_day_pct : Option ℚ := none
  water_loss_total_g : Option ℤ := none
  water_loss_total_pct : Option ℚ := none
  is_watering_event : Bool := false
  deriving DecidableEq, Repr

/-- Embedding of `calculate_water_loss` from `helpers/water_loss.py`.
`db` is the measurement table at query time; `last_watering_water_added`
and `prev_measured_weight` are the caller-supplied arguments; the function
re-locates the strict last Watering event itself for the totals. -/
def calculate_water_loss (db : List Row) (measured_at : ℤ)
    (measured_weight_g last_wet_weight_g water_added_g : Option ℤ)
    (last_watering_water_added : ℤ) (prev_measured_weight : Option ℤ)
    (excludeId : Option Nat) : WaterLossCalculation :=
  -- water_added_g is accepted but unused, as in the source
  let _ := water_added_g
  if measured_weight_g = none then
    { water_loss_total_pct := some 0, is_watering_event := true }
  else
    -- daily loss
    let baseline_for_day : Option ℤ :=
      if measured_weight_g ≠ none ∧ prev_measured_weight ≠ none then
        prev_measured_weight
      else last_wet_weight_g
    let dayPair : Option ℤ × Option ℚ :=
      match measured_weight_g, baseline_for_day with
      | some w, some b =>
        let daydiff := max (b - w) 0
        let pct : Option ℚ :=
          if 0 < last_watering_water_added then
            some (pyRound2 ((daydiff : ℚ) / (last_watering_water_added : ℚ) * 100))
          else if 0 < last_wet_weight_g.getD 0 then
            some (pyRound2 ((daydiff : ℚ) / ((last_wet_weight_g.getD 0 : ℤ) : ℚ) * 100))
          else none
        (some daydiff, pct)
      | _, _ => (none, none)
    let day_g := dayPair.1
    let day_pct0 := dayPair.2
    -- total loss since the last strict Watering event (re-located here)
    match latestBy isStrictWatering db with
    | some e =>
      let lwa2 := e.water_added_g.getD 0
      let last_watered_at := e.measured_at
      let summed : ℤ :=
        ((db.filter
            (fun r =>
              (match excludeId with
               | some x => decide (r.id ≠ x)
               | none => true)
                && decide (last_watered_at < r.measured_at)
                && decide (r.measured_at ≤ measured_at))).map
          (fun r =>
            match r.water_loss_day_g with
            | some d => d
            | none => max (r.last_wet_weight_g.getD 0 - r.measured_weight_g.getD 0) 0)).sum
      let total_g := summed + day_g.getD 0
      let total_pct : Option ℚ :=
        if 0 < lwa2 then some (pyRound2 ((total_g : ℚ) / (lwa2 : ℚ) * 100)) else none
      let day_pct : Option ℚ :=
        if 0 < lwa2 then
          match day_pct0, day_g with
          | none, some d => some (pyRound2 ((d : ℚ) / (lwa2 : ℚ) * 100))
          | _, _ => day_pct0
        else day_pct0
      { water_loss_day_g := day_g
        water_loss_day_pct := day_pct
        water_loss_total_g := some total_g
        water_loss_total_pct := total_pct
        is_watering_event := false }
    | none =>
      { water_loss_day_g := day_g
        water_loss_day_pct := day_pct0
        water_loss_total_g := none
        water_loss_total_pct := none
        is_watering_event := false }

/-- Embedding of `calculate_water_retained` from `helpers/water_retained.py`.
`min_dry_weight_g` and `max_water_weight_g` follow the source's type hints
(plain floats); the three remaining arguments are nullable.  Returns the
`water_retained_pct` field of the result object. -/
def calculate_water_retained (min_dry_weight_g max_water_weight_g : ℚ)
    (measured_weight_g last_wet_weight_g water_loss_total_pct : Option ℚ) : Option ℚ :=
  -- after repotting followed by a watering event, substitute the wet weight
  let mw : Option ℚ :=
    if measured_weight_g = none ∧ water_loss_total_pct = some 0 then
      last_wet_weight_g
    else measured_weight_g
  let remain : Option ℚ :=
    match mw with
    | none =>
      match last_wet_weight_g with
      | some l => some (l - min_dry_weight_g)
      | none => none
    | some w => some (w - min_dry_weight_g)
  match remain with
  | none => none
  | some water_remain_g =>
    if mw ≠ some min_dry_weight_g then
      let saturated_weight_g := min_dry_weight_g + max_water_weight_g
      let effective_saturated_weight_g :=
        match last_wet_weight_g with
        | some l => if min_dry_weight_g ≤ l then min saturated_weight_g l else saturated_weight_g
        | none => saturated_weight_g
      let available_water_g := effective_saturated_weight_g - min_dry_weight_g
      if 0 < available_water_g then
        some (max 0 (min 1 (water_remain_g / available_water_g)) * 100)
      else none
    else
      match water_loss_total_pct with
      | some t => some (100 - t)
      | none => some 100

/-- `statistics.median`: sort ascending; middle element for odd length,
mean of the two middle elements for even length. -/
def pyMedian (l : List ℚ) : ℚ :=
  let s := List.insertionSort (· ≤ ·) l
  let n := s.length
  if n % 2 = 1 then s.getD (n / 2) 0
  else (s.getD (n / 2 - 1) 0 + s.getD (n / 2) 0) / 2

/-- Model of `_fetch_watering_events_since`: timestamps of loose-Watering
rows, optionally restricted to `measured_at >= since`, ascending. -/
def wateringEventTimes (db : List Row) (since : Option ℤ) : List ℤ :=
  List.insertionSort (· ≤ ·)
    ((db.filter
        (fun r =>
          isLooseWatering r
            && (match since with
                | some s => decide (s ≤ r.measured_at)
                | none => true))).map
      (fun r => r.measured_at))

/-- Consecutive day-gaps of a timestamp list (seconds / 86400), keeping
only the non-negative ones, as in `compute_frequency_days`. -/
def dayGaps (ts : List ℤ) : List ℚ :=
  ((ts.zip ts.tail).map (fun p => ((p.2 - p.1 : ℤ) : ℚ) / 86400000)).filter
    (fun d => decide (0 ≤ d))

/-- Embedding of `compute_frequency_days` from `helpers/frequency.py`:
`(frequency_days, event_count)`. -/
def compute_frequency_days (db : List Row) : Option ℤ × ℕ :=
  let since := (latestBy isRepotting db).map (fun r => r.measured_at)
  let events := wateringEventTimes db since
  if events.length < 2 then (none, events.length)
  else
    let intervals_days := dayGaps events
    if intervals_days = [] then (none, events.length)
    else (some (pyRound (pyMedian intervals_days)), events.length)

/-- The corrections window filter: `measured_at >= from` / `<= to` when
the bounds are present. -/
def inWindow (fromT toT : Option ℤ) (r : Row) : Bool :=
  (match fromT with | some a => decide (a ≤ r.measured_at) | none => true)
    && (match toT with | some b => decide (r.measured_at ≤ b) | none => true)

/-- Corrector target in `capacity` mode: `min_dry + max_water`. -/
def corrTargetCapacity (min_dry max_water : ℤ) : ℤ := min_dry + max_water

/-- Corrector target in `retained_ratio` mode:
`min_dry + round(clamp(rec_pct,0,100)/100 * max_water)`. -/
def corrTargetRetainedRatio (min_dry max_water rec_pct : ℤ) : ℤ :=
  min_dry + pyRound ((max 0 (min 100 rec_pct) : ℚ) / 100 * (max_water : ℚ))

/-- The corrector's candidate-row predicate (the SQL WHERE clause):
weight null, inside the window, `last_wet_weight_g` non-null and above
the target. -/
def corrSelected (target : ℤ) (fromT toT : Option ℤ) (r : Row) : Bool :=
  r.measured_weight_g.isNone && inWindow fromT toT r
    && (match r.last_wet_weight_g with
        | some l => decide (target < l)
        | none => false)

/-- `excess = max(0, last_wet_weight_g - target)` for one candidate row. -/
def rowExcess (target : ℤ) (r : Row) : ℤ :=
  max 0 (r.last_wet_weight_g.getD 0 - target)

/-- The per-row UPDATE of the corrector: `water_added_g := max(0,
water_added_g - excess)` and, when `edit_last_wet`, `last_wet_weight_g :=
LEAST(COALESCE(last_wet_weight_g, target), target)`. -/
def correctRow (target : ℤ) (edit_last_wet : Bool) (r : Row) : Row :=
  let excess := rowExcess target r
  let new_added := max 0 (r.water_added_g.getD 0 - excess)
  if edit_last_wet then
    { r with
      water_added_g := some new_added
      last_wet_weight_g := some (min (r.last_wet_weight_g.getD target) target) }
  else { r with water_added_g := some new_added }

/-- Transient summary of one corrector run (`CorrectionResult`). -/
structure CorrectionResult where
  updated : ℕ
  total_excess_g : ℤ
  rows : List Row
  deriving DecidableEq, Repr

/-- Embedding of the batch body of `apply_measurements_corrections` from
`routes/measurements.py`: all selected rows (those matching the WHERE
clause whose excess is positive — the `if excess <= 0: continue` guard)
are updated in one transaction; every other row is untouched. -/
def apply_measurements_corrections (db : List Row) (target : ℤ)
    (fromT toT : Option ℤ) (edit_last_wet : Bool) : CorrectionResult :=
  let hit : Row → Bool :=
    fun r => corrSelected target fromT toT r && decide (0 < rowExcess target r)
  { updated := (db.filter hit).length
    total_excess_g := ((db.filter hit).map (rowExcess target)).sum
    rows := db.map (fun r => if hit r then correctRow target edit_last_wet r else r) }

/-- Python 3 semantics of the comparison `t > n` between a tuple and an
int: it always raises `TypeError` (there is no ordering between the two
types), modelled as `Except.error`. -/
def pyGtTupleInt (t : Option ℤ × ℕ) (n : ℤ) : Except Unit Bool :=
  let _ := t
  let _ := n
  Except.error ()

/-- Embedding of the frequency-and-projection step of
`PlantsList.fetch_all` (lines 136-176 of `helpers/plants_list.py`),
yielding the `next_watering_at` value or the exception that escapes the
listing.  Line 137 binds `freq_days` to the *pair* `(Optional[int], int)`
returned by `compute_frequency_days`; when that call raises
(`freq_fault`), the handler at line 138 sets `freq_days = None` and the
guard at line 143 short-circuits on `freq_days is not None`, leaving
`next_watering_at = None`.  Otherwise the pair is never `None`, so the
guard evaluates `freq_days > 0` — a tuple-int comparison that raises an
uncaught `TypeError` (the enclosing block has only a `finally`), and the
projection body of lines 144-176 is unreachable.  (Were the guard somehow
passed with the pair, `int(freq_days)` at line 164 would raise inside the
inner handler, which also leaves `next_watering_at = None`.) -/
def fetch_all_next_watering (db : List Row) (freq_fault : Bool) :
    Except Unit (Option ℤ) :=
  if freq_fault then Except.ok none
  else
    match pyGtTupleInt (compute_frequency_days db) 0 with
    | Except.error e => Except.error e
    | Except.ok _ => Except.ok none

/-- `calculate_min_dry_weight_g`: minimum stored weight strictly after the
last Repotting event (all weights when none exists). -/
def minDryScan (rows : List Row) : Option ℤ :=
  let weights : List ℤ :=
    match latestBy isRepotting rows with
    | none => rows.filterMap (fun r => r.measured_weight_g)
    | some rp =>
      (rows.filter (fun r => decide (rp.measured_at < r.measured_at))).filterMap
        (fun r => r.measured_weight_g)
  weights.min?

/-- `calculate_max_watering_added_g`: maximum stored water-added at or
after the last Repotting event (all values when none exists). -/
def maxWaterScan (rows : List Row) : Option ℤ :=
  let adds : List ℤ :=
    match latestBy isRepotting rows with
    | none => rows.filterMap (fun r => r.water_added_g)
    | some rp =>
      (rows.filter (fun r => decide (rp.measured_at ≤ r.measured_at))).filterMap
        (fun r => r.water_added_g)
  adds.max?

/-- The bounds computed by `update_min_dry_weight_and_max_watering_added_g`
before its UPDATE: rescanned extrema merged with the candidate values. -/
def boundMaintainerBounds (rows : List Row) (newW newWa : Option ℤ) :
    Option ℤ × Option ℤ :=
  let m :=
    match minDryScan rows, newW with
    | none, w => w
    | some c, some w => if w < c then some w else some c
    | some c, none => some c
  let M :=
    match maxWaterScan rows, newWa with
    | none, w => w
    | some c, some w => if c < w then some w else some c
    | some c, none => some c
  (m, M)

/-- Persistent per-plant state: the measurement table and the two
calibration bounds of the Plant row. -/
structure PlantState where
  rows : List Row
  min_dry_weight_g : Option ℤ
  max_water_weight_g : Option ℤ
  deriving DecidableEq, Repr

/-- Which step of the create-measurement path raises an exception. -/
structure StepFaults where
  derive_fault : Bool
  loss_fault : Bool
  insert_fault : Bool
  bound_fault : Bool
  deriving DecidableEq, Repr

/-- Outcome of a write path: the state made visible by a commit, or the
pre-transaction state after a rollback. -/
inductive WriteOutcome where
  | committed (s : PlantState)
  | rolled_back (s : PlantState)
  deriving DecidableEq, Repr

/-- Control-flow model of `create_measurement` in `routes/measurements.py`:
derive → loss → INSERT → bound update → commit, with rollback on any
exception raised in the `try` block.  The bound maintainer
(`update_min_dry_weight_and_max_watering_added_g`) catches every exception
internally, so `bound_fault` does not reach the rollback handler: the
outer commit still publishes the inserted row with stale bounds. -/
def measurement_write_path (s : PlantState) (newRow : Row)
    (check_min_weight check_max_water : Option ℤ) (f : StepFaults) : WriteOutcome :=
  if f.derive_fault || f.loss_fault || f.insert_fault then
    .rolled_back s
  else
    let rows2 := s.rows ++ [newRow]
    if f.bound_fault then
      .committed { s with rows := rows2 }
    else
      let b := boundMaintainerBounds rows2 check_min_weight check_max_water
      .committed { rows := rows2, min_dry_weight_g := b.1, max_water_weight_g := b.2 }

/-- A concrete strict-Watering row used by several witnesses: watered 20 g
on top of a 60 g dry / 80 g wet baseline. -/
def exStrictRow : Row :=
  { id := 2, measured_at := 5, measured_weight_g := none, last_dry_weight_g := some 60,
    last_wet_weight_g := some 80, water_added_g := some 20, water_loss_total_pct := some 0,
    water_loss_total_g := none, water_loss_day_pct := none, water_loss_day_g := none }

/-- A concrete Repotting row: 80 g pot weight recorded. -/
def exRepotRow : Row :=
  { id := 1, measured_at := 10, measured_weight_g := some 80, last_dry_weight_g := some 70,
    last_wet_weight_g := none, water_added_g := some 0, water_loss_total_pct := none,
    water_loss_total_g := none, water_loss_day_pct := none, water_loss_day_g := none }

/-- A loose-Watering row at time `t` (milliseconds). -/
def looseRowAt (n : Nat) (t : ℤ) : Row :=
  { id := n, measured_at := t, measured_weight_g := none, last_dry_weight_g := some 60,
    last_wet_weight_g := some 80, water_added_g := some 20, water_loss_total_pct := some 0,
    water_loss_total_g := none, water_loss_day_pct := none, water_loss_day_g := none }

/-- Watering history at days 0, 3 and 10, the scenario of §8 of the spec. -/
def exFrequencyDb : List Row :=
  [looseRowAt 1 0, looseRowAt 2 259200000, looseRowAt 3 864000000]

/-- The corrector scenario row: a Watering row with `last_wet = 110` and
`water_added = 50`. -/
def exCorrRow : Row :=
  { id := 7, measured_at := 5, measured_weight_g := none, last_dry_weight_g := some 80,
    last_wet_weight_g := some 110, water_added_g := some 50, water_loss_total_pct := some 0,
    water_loss_total_g := none, water_loss_day_pct := none, water_loss_day_g := none }

/-- A weight-less row that is not a loose-Watering row: its
`water_loss_total_pct` is 5, not 0. -/
def exNonLooseRow : Row :=
  { id := 8, measured_at := 6, measured_weight_g := none, last_dry_weight_g := some 80,
    last_wet_weight_g := some 110, water_added_g := some 50, water_loss_total_pct := some 5,
    water_loss_total_g := none, water_loss_day_pct := none, water_loss_day_g := none }

theorem latestStep_foldl_sat (p : Row → Bool) :
    ∀ (db : List Row) (acc : Option Row) (r : Row),
      (∀ a, acc = some a → p a = true) →
      db.foldl (latestStep p) acc = some r → p r = true := by
  intro db
  induction db with
  | nil =>
    intro acc r hacc hfold
    exact hacc r hfold
  | cons x xs ih =>
    intro acc r hacc hfold
    simp only [List.foldl_cons] at hfold
    refine ih _ r ?_ hfold
    intro a ha
    unfold latestStep at ha
    by_cases hx : p x = true
    · rw [hx] at ha
      simp only [if_true] at ha
      cases acc with
      | none =>
        simp only at ha
        cases ha; exact hx
      | some b =>
        simp only at ha
        by_cases hlt : b.measured_at < x.measured_at
        · rw [if_pos hlt] at ha; cases ha; exact hx
        · rw [if_neg hlt] at ha; exact hacc a ha
    · rw [Bool.not_eq_true] at hx
      rw [hx] at ha
      simp only [Bool.false_eq_true, if_false] at ha
      exact hacc a ha

theorem latestBy_sat (p : Row → Bool) (db : List Row) (r : Row)
    (h : latestBy p db = some r) : p r = true :=
  latestStep_foldl_sat p db none r (by intro a ha; cases ha) h

theorem lastWateringAdded_nonneg (db : List Row) : 0 ≤ lastWateringAdded db := by
  unfold lastWateringAdded
  cases hq : latestBy isStrictWatering db with
  | none => simp
  | some e =>
    have hp := latestBy_sat isStrictWatering db e hq
    unfold isStrictWatering at hp
    simp only [Bool.and_eq_true] at hp
    rcases hp with ⟨⟨_, _⟩, hw⟩
    cases hwa : e.water_added_g with
    | none => rw [hwa] at hw; simp at hw
    | some w =>
      rw [hwa] at hw
      simp only [decide_eq_true_eq] at hw
      simp only [Option.getD_some, hwa]
      omega

/-- C1: for a Watering event (no measured weight) the Water-Loss
Accumulator returns `water_loss_total_pct = 0` and leaves the three other
loss fields unset, whatever the remaining arguments and the database
contents are. -/
theorem c1_watering_event_loss_fields (db : List Row) (measured_at : ℤ)
    (last_wet_weight_g water_added_g : Option ℤ) (last_watering_water_added : ℤ)
    (prev_measured_weight : Option ℤ) (excludeId : Option Nat) :
    calculate_water_loss db measured_at none last_wet_weight_g water_added_g
        last_watering_water_added prev_measured_weight excludeId =
      { water_loss_day_g := none, water_loss_day_pct := none,
        water_loss_total_g := none, water_loss_total_pct := some 0,
        is_watering_event := true } := rfl

/-- C10: the strict Watering predicate of the last-Watering locator
implies the loose Watering predicate of the Frequency Estimator's event
query, so every locator result is counted as a frequency event. -/
theorem c10_strict_implies_loose (r : Row) (h : isStrictWatering r = true) :
    isLooseWatering r = true := by
  unfold isStrictWatering at h
  unfold isLooseWatering
  simp only [Bool.and_eq_true] at h ⊢
  exact ⟨h.1.1.1.1.1.1.1, h.1.1.1.1.1.1.2⟩

/-- C10 witness: the concrete strict-Watering row is a loose-Watering row. -/
theorem c10_witness : isLooseWatering exStrictRow = true :=
  c10_strict_implies_loose exStrictRow (by decide)

/-- C2 counterexample: a Watering payload carrying an explicit wet
baseline (10 g) below the explicit dry baseline (50 g) makes
`derive_weights` return the negative water_added −40 — the claimed
clamping to a non-negative integer does not happen. -/
theorem c2_counterexample :
    (derive_weights [] 0 none (some 50) (some 10) none none).water_added_g = -40 ∧
    ¬ 0 ≤ (derive_weights [] 0 none (some 50) (some 10) none none).water_added_g := by
  decide

set_option maxHeartbeats 2000000 in
/-- C2 (amended): the water_added value returned by `derive_weights` is a
non-negative integer whenever the event is a Weighing (a measured weight
is present), or the derived wet baseline is at least the derived dry
baseline; an explicit wet baseline below the dry baseline can make it
negative. -/
theorem c2_water_added_nonneg (db : List Row) (t : ℤ) (mw ld lw pwa : Option ℤ)
    (ex : Option Nat)
    (h : mw ≠ none ∨
      (derive_weights db t mw ld lw pwa ex).last_dry_weight_g.getD 0 ≤
        (derive_weights db t mw ld lw pwa ex).last_wet_weight_g.getD 0) :
    0 ≤ (derive_weights db t mw ld lw pwa ex).water_added_g := by
  have hlwa := lastWateringAdded_nonneg db
  simp only [derive_weights] at h ⊢
  rcases hP : prevRowBefore db t ex with _ | p
  · cases mw <;> cases ld <;> cases lw <;> cases pwa <;>
      (try simp_all) <;> (try split_ifs at *) <;> (try simp_all) <;> omega
  · rcases hpw : p.measured_weight_g with _ | pw <;>
    rcases hpld : p.last_dry_weight_g with _ | pld <;>
    rcases hplw : p.last_wet_weight_g with _ | plw <;>
      cases mw <;> cases ld <;> cases lw <;> cases pwa <;>
        (try simp_all) <;> (try split_ifs at *) <;> (try simp_all) <;> omega

/-- C2 witness: a Weighing event on an empty history yields a
non-negative water_added. -/
theorem c2_witness : 0 ≤ (derive_weights [] 0 (some 5) none none none none).water_added_g :=
  c2_water_added_nonneg [] 0 (some 5) none none none none (Or.inl (by decide))

/-- C4: on a bare Watering row (no weight, no explicit baselines, no
explicit water-added) whose previous row carries a measured weight but no
wet baseline — a fresh Repotting row — `derive_weights` synthesizes
`last_wet = last_dry + last_watering_added`, the dry baseline being the
previous row's weight. -/
theorem c4_synthesized_wet_baseline (db : List Row) (t : ℤ) (ex : Option Nat)
    (p : Row) (dw : ℤ)
    (hprev : prevRowBefore db t ex = some p)
    (hpw : p.measured_weight_g = some dw)
    (hplw : p.last_wet_weight_g = none) :
    (derive_weights db t none none none none ex).last_wet_weight_g =
      some (dw + lastWateringAdded db) ∧
    (derive_weights db t none none none none ex).last_dry_weight_g = some dw := by
  simp [derive_weights, hprev, hpw, hplw]

/-- C4 witness: a fresh Repotting row with weight 80 followed by a bare
Watering row, with a last strict Watering of 20 g, yields the synthesized
wet baseline 100. -/
theorem c4_witness :
    (derive_weights [exRepotRow, exStrictRow] 11 none none none none none).last_wet_weight_g =
      some 100 ∧
    (derive_weights [exRepotRow, exStrictRow] 11 none none none none none).last_dry_weight_g =
      some 80 := by
  have h := c4_synthesized_wet_baseline [exRepotRow, exStrictRow] 11 none exRepotRow 80
    (by decide) (by decide) (by decide)
  have hl : lastWateringAdded [exRepotRow, exStrictRow] = 20 := by decide
  rw [hl] at h
  exact ⟨by rw [h.1]; norm_num, h.2⟩

/-- C3 counterexample: in the degenerate branch (`min_dry` equals the
effective weight) the Normalizer returns `100 - total_pct` unclamped, so
`min_dry = 80, max_water = 20, weight = 80, total_pct = 150` produces the
defined percentage −50, outside [0, 100]. -/
theorem c3_counterexample :
    calculate_water_retained 80 20 (some 80) none (some 150) = some (-50) ∧
    ((-50 : ℚ) < 0) := by
  norm_num [calculate_water_retained]

set_option maxHeartbeats 1000000 in
/-- C3 (amended): whenever the Water-Retention Normalizer produces a
defined percentage and the supplied `water_loss_total_pct`, if any, lies
in [0, 100], the result lies in [0, 100]; in particular `min_dry = 80,
max_water = 20` gives 100 at weight 200 and 0 at weight 70.  (Without the
bound on `total_pct` the degenerate `min_dry = weight` branch can leave
[0, 100].) -/
theorem c3_water_retained_range (md maxw : ℚ) (mw lw tp : Option ℚ)
    (htp : ∀ u, tp = some u → 0 ≤ u ∧ u ≤ 100) :
    (∀ p, calculate_water_retained md maxw mw lw tp = some p → 0 ≤ p ∧ p ≤ 100) ∧
    calculate_water_retained 80 20 (some 200) none none = some 100 ∧
    calculate_water_retained 80 20 (some 70) none none = some 0 := by
  have hub : ∀ y : ℚ, ((0:ℚ) ⊔ 1 ⊓ y) * 100 ≤ 100 := by
    intro y
    have h1 : (0:ℚ) ⊔ 1 ⊓ y ≤ 1 := sup_le (by norm_num) inf_le_left
    nlinarith
  have hlb : ∀ y : ℚ, (0:ℚ) ≤ ((0:ℚ) ⊔ 1 ⊓ y) * 100 := by
    intro y
    exact mul_nonneg le_sup_left (by norm_num)
  refine ⟨?_,
    by norm_num [calculate_water_retained, Option.some_ne_none, false_and, if_false,
      Option.some.injEq],
    by norm_num [calculate_water_retained, Option.some_ne_none, false_and, if_false,
      Option.some.injEq]⟩
  intro p hp
  rcases htp2 : tp with _ | u
  · subst htp2
    clear htp
    cases mw <;> cases lw <;>
      simp only [calculate_water_retained] at hp <;>
      repeat' split at hp
    all_goals (try cases hp)
    all_goals try exact ⟨hlb _, hub _⟩
    all_goals simp_all
  · have hu := htp u htp2
    subst htp2
    clear htp
    cases mw <;> cases lw <;>
      simp only [calculate_water_retained] at hp <;>
      repeat' split at hp
    all_goals (try cases hp)
    all_goals try exact ⟨hlb _, hub _⟩
    all_goals simp_all

/-- C3 witness: with `total_pct = 25` in range, the degenerate input
`min_dry = 80 = weight` yields 75, which the theorem bounds inside
[0, 100]; the weight-200 example evaluates to 100. -/
theorem c3_witness :
    (0 ≤ (75:ℚ) ∧ (75:ℚ) ≤ 100) ∧
    calculate_water_retained 80 20 (some 200) none none = some 100 := by
  have h := c3_water_retained_range 80 20 (some 80) none (some 25)
    (by intro u hu; cases hu; norm_num)
  exact ⟨h.1 75 (by norm_num [calculate_water_retained]), h.2.1⟩

theorem corrSelected_excess_pos (target : ℤ) (fromT toT : Option ℤ) (r : Row)
    (h : corrSelected target fromT toT r = true) : 0 < rowExcess target r := by
  unfold corrSelected at h
  simp only [Bool.and_eq_true] at h
  rcases h with ⟨-, hl⟩
  unfold rowExcess
  cases hlw : r.last_wet_weight_g with
  | none => rw [hlw] at hl; simp at hl
  | some l =>
    rw [hlw] at hl
    simp only [decide_eq_true_eq] at hl
    simp only [hlw, Option.getD_some]
    omega

theorem corrSelected_last_wet (target : ℤ) (fromT toT : Option ℤ) (r : Row)
    (h : corrSelected target fromT toT r = true) :
    ∃ l, r.last_wet_weight_g = some l ∧ target < l := by
  unfold corrSelected at h
  simp only [Bool.and_eq_true] at h
  rcases h with ⟨-, hl⟩
  cases hlw : r.last_wet_weight_g with
  | none => rw [hlw] at hl; simp at hl
  | some l =>
    rw [hlw] at hl
    simp only [decide_eq_true_eq] at hl
    exact ⟨l, rfl, hl⟩

theorem map_id_of_fix {α : Type} (l : List α) (f : α → α)
    (h : ∀ x ∈ l, f x = x) : l.map f = l := by
  induction l with
  | nil => rfl
  | cons a t ih =>
    simp only [List.map_cons, h a (List.mem_cons_self a t)]
    rw [ih (fun x hx => h x (List.mem_cons_of_mem a hx))]

/-- C5 counterexample: a weight-less row whose `water_loss_total_pct` is 5
is not a loose-Watering row, yet the corrector's SQL predicate (which does
not test `water_loss_total_pct`) selects and updates it — the corrector
does not update *exactly* the loose-Watering rows. -/
theorem c5_counterexample :
    (apply_measurements_corrections [exNonLooseRow] 100 none none true).updated = 1 ∧
    isLooseWatering exNonLooseRow = false := by decide

/-- C5 (amended): a capacity-mode corrector run updates exactly the
in-window rows with `measured_weight_g` absent and a recorded `last_wet`
above `target = min_dry + max_water` (the loose predicate's
`water_loss_total_pct = 0` is not required); each selected row gets
`water_added := max(0, water_added − (last_wet − target))` and, when
`edit_last_wet` is on, `last_wet := min(last_wet, target)`; the scenario
row (110 g wet, 50 g added, target 100) becomes 40 g added, 100 g wet. -/
theorem c5_correction_characterization (db : List Row) (target : ℤ)
    (fromT toT : Option ℤ) (edit : Bool) :
    (apply_measurements_corrections db target fromT toT edit).rows.length = db.length ∧
    (apply_measurements_corrections db target fromT toT edit).updated =
      (db.filter (fun r => corrSelected target fromT toT r)).length ∧
    (∀ (i : ℕ) (r : Row), db[i]? = some r →
      (corrSelected target fromT toT r = true →
        ∃ l, r.last_wet_weight_g = some l ∧ target < l ∧
          (apply_measurements_corrections db target fromT toT edit).rows[i]? =
            some { r with
              water_added_g := some (max 0 (r.water_added_g.getD 0 - (l - target)))
              last_wet_weight_g :=
                if edit then some (min l target) else r.last_wet_weight_g }) ∧
      (corrSelected target fromT toT r = false →
        (apply_measurements_corrections db target fromT toT edit).rows[i]? = some r)) ∧
    apply_measurements_corrections [exCorrRow] (corrTargetCapacity 80 20) none none true =
      { updated := 1, total_excess_g := 10,
        rows :=
          [{ exCorrRow with water_added_g := some 40, last_wet_weight_g := some 100 }] } := by
  have hitEq : ∀ r ∈ db,
      (corrSelected target fromT toT r && decide (0 < rowExcess target r)) =
        corrSelected target fromT toT r := by
    intro r _
    cases hc : corrSelected target fromT toT r
    · simp
    · simp [corrSelected_excess_pos target fromT toT r hc]
  refine ⟨?_, ?_, ?_, by decide⟩
  · simp [apply_measurements_corrections]
  · simp only [apply_measurements_corrections]
    rw [List.filter_congr hitEq]
  · intro i r hir
    have hmap : (apply_measurements_corrections db target fromT toT edit).rows[i]? =
        some (if corrSelected target fromT toT r && decide (0 < rowExcess target r) then
          correctRow target edit r else r) := by
      simp only [apply_measurements_corrections]
      rw [List.getElem?_map, hir]
      rfl
    constructor
    · intro hsel
      obtain ⟨l, hl, hlt⟩ := corrSelected_last_wet target fromT toT r hsel
      refine ⟨l, hl, hlt, ?_⟩
      rw [hmap]
      have hx := corrSelected_excess_pos target fromT toT r hsel
      rw [hsel]
      simp only [hx, decide_eq_true_eq, Bool.and_true, decide_True, Bool.and_self, if_true]
      unfold correctRow rowExcess
      rw [hl]
      simp only [Option.getD_some]
      have hmax : max 0 (l - target) = l - target := by omega
      rw [hmax]
      cases edit
      · simp
      · simp only [if_true]
    · intro hsel
      rw [hmap, hsel]
      simp

/-- C5 witness: the characterization applied to the scenario database
rewrites the 110/50 row to 40 g added and a 100 g wet cap. -/
theorem c5_witness :
    (apply_measurements_corrections [exCorrRow] 100 none none true).rows[0]? =
      some { exCorrRow with water_added_g := some 40, last_wet_weight_g := some 100 } := by
  have h := (c5_correction_characterization [exCorrRow] 100 none none true).2.2.1
    0 exCorrRow (by decide)
  obtain ⟨l, hl, hlt, heq⟩ := h.1 (by decide)
  have h110 : l = 110 := by
    have h2 : (some 110 : Option ℤ) = some l := hl
    exact (Option.some.inj h2).symm
  subst h110
  rw [heq]
  decide

/-- The per-row second-run no-hit fact behind C6: a row already processed
by an `edit_last_wet` corrector pass (or skipped by it) is not selected
again with the same parameters. -/
theorem hit_g_false (target : ℤ) (fromT toT : Option ℤ) (r : Row) :
    (corrSelected target fromT toT
        (if corrSelected target fromT toT r && decide (0 < rowExcess target r) then
          correctRow target true r else r)
      && decide (0 < rowExcess target
        (if corrSelected target fromT toT r && decide (0 < rowExcess target r) then
          correctRow target true r else r))) = false := by
  cases hc : corrSelected target fromT toT r
  · simp only [hc, Bool.false_and, if_false]
    simp [hc]
  · have hx := corrSelected_excess_pos target fromT toT r hc
    obtain ⟨l, hl, hlt⟩ := corrSelected_last_wet target fromT toT r hc
    simp only [hc, hx, decide_True, Bool.and_self, if_true, Bool.true_and]
    have hcor : corrSelected target fromT toT (correctRow target true r) = false := by
      unfold corrSelected correctRow
      rw [hl]
      simp only [Option.getD_some, if_true]
      have hmin : ¬ target < min l target := by omega
      simp [hmin]
    simp [hcor]

/-- C6 counterexample: with `edit_last_wet` off, the 110/50 scenario row
keeps `last_wet = 110 > target = 100` after the first run, so an
identically-parameterized second run selects and updates it again
(`updated = 1`, not 0) — the corrector is not idempotent for every
parameter choice. -/
theorem c6_counterexample :
    (apply_measurements_corrections
      (apply_measurements_corrections [exCorrRow] 100 none none false).rows
      100 none none false).updated = 1 := by decide

/-- C6 (amended): with `edit_last_wet` on (the default), a second
corrector run with identical parameters updates no rows, removes no
excess, and leaves every row unchanged, for every history and window. -/
theorem c6_idempotent_with_edit_last_wet (db : List Row) (target : ℤ)
    (fromT toT : Option ℤ) :
    ((apply_measurements_corrections
        (apply_measurements_corrections db target fromT toT true).rows
        target fromT toT true).updated = 0) ∧
    ((apply_measurements_corrections
        (apply_measurements_corrections db target fromT toT true).rows
        target fromT toT true).total_excess_g = 0) ∧
    ((apply_measurements_corrections
        (apply_measurements_corrections db target fromT toT true).rows
        target fromT toT true).rows =
      (apply_measurements_corrections db target fromT toT true).rows) := by
  have hall : ∀ r ∈ (apply_measurements_corrections db target fromT toT true).rows,
      (corrSelected target fromT toT r && decide (0 < rowExcess target r)) = false := by
    intro r hr
    simp only [apply_measurements_corrections, List.mem_map] at hr
    obtain ⟨x, -, hx⟩ := hr
    rw [← hx]
    exact hit_g_false target fromT toT x
  have hfilter : ((apply_measurements_corrections db target fromT toT true).rows.filter
      (fun r => corrSelected target fromT toT r && decide (0 < rowExcess target r))) = [] := by
    rw [List.filter_eq_nil_iff]
    intro a ha
    rw [hall a ha]
    simp
  refine ⟨?_, ?_, ?_⟩
  · simp only [apply_measurements_corrections] at hfilter ⊢
    rw [hfilter]
    rfl
  · simp only [apply_measurements_corrections] at hfilter ⊢
    rw [hfilter]
    rfl
  · conv_lhs => simp only [apply_measurements_corrections]
    refine map_id_of_fix _ _ ?_
    intro x hx
    have hx2 : x ∈ (apply_measurements_corrections db target fromT toT true).rows := hx
    simp only [hall x hx2, Bool.false_eq_true, if_false]

theorem pyRound_nearest (q : ℚ) : |((pyRound q : ℤ) : ℚ) - q| ≤ 1/2 := by
  have hfl : (⌊q⌋ : ℚ) ≤ q := Int.floor_le q
  have hfu : q < (⌊q⌋ : ℚ) + 1 := Int.lt_floor_add_one q
  unfold pyRound
  split_ifs with h1 h2 h3
  · rw [abs_le]; constructor <;> linarith
  · rw [abs_le]; push_cast; constructor <;> linarith
  · rw [abs_le]; constructor <;> linarith
  · rw [abs_le]; push_cast; constructor <;> linarith

theorem sorted_zip_le :
    ∀ (l : List ℤ), l.Sorted (· ≤ ·) → ∀ p ∈ l.zip l.tail, p.1 ≤ p.2 := by
  intro l
  induction l with
  | nil => intro _ p hp; simp at hp
  | cons a t ih =>
    intro hs p hp
    cases t with
    | nil => simp at hp
    | cons b t2 =>
      simp only [List.tail_cons, List.zip_cons_cons] at hp
      rcases List.mem_cons.mp hp with h1 | h2
      · subst h1
        exact (List.sorted_cons.mp hs).1 b (List.mem_cons_self b t2)
      · have hs2 : (b :: t2).Sorted (· ≤ ·) := (List.sorted_cons.mp hs).2
        exact ih hs2 p (by simpa using h2)

theorem dayGaps_of_sorted (l : List ℤ) (hs : l.Sorted (· ≤ ·)) :
    dayGaps l = (l.zip l.tail).map (fun p => ((p.2 - p.1 : ℤ) : ℚ) / 86400000) := by
  unfold dayGaps
  rw [List.filter_eq_self]
  intro a ha
  rw [List.mem_map] at ha
  obtain ⟨p, hp, rfl⟩ := ha
  have h12 := sorted_zip_le l hs p hp
  rw [decide_eq_true_eq]
  apply div_nonneg _ (by norm_num)
  have h0 : (0:ℤ) ≤ p.2 - p.1 := by omega
  exact_mod_cast h0

theorem dayGaps_ne_nil (l : List ℤ) (hs : l.Sorted (· ≤ ·)) (h2 : 2 ≤ l.length) :
    dayGaps l ≠ [] := by
  rw [dayGaps_of_sorted l hs]
  intro hnil
  have := congrArg List.length hnil
  simp only [List.length_map, List.length_zip, List.length_tail, List.length_nil] at this
  omega

theorem wateringEventTimes_sorted (db : List Row) (since : Option ℤ) :
    (wateringEventTimes db since).Sorted (· ≤ ·) := by
  unfold wateringEventTimes
  exact List.sorted_insertionSort _ _

/-- C7: the Frequency Estimator returns absent with fewer than 2
loose-Watering events at or after the last Repotting; with 2 or more it
returns the banker's-rounded median of the non-negative consecutive
day-gaps, which is within half a day of that median; events at days
0, 3, 10 (gaps 3 and 7) give 5. -/
theorem c7_frequency_estimator (db : List Row) :
    ((wateringEventTimes db ((latestBy isRepotting db).map (fun r => r.measured_at))).length < 2 →
      (compute_frequency_days db).1 = none) ∧
    (2 ≤ (wateringEventTimes db ((latestBy isRepotting db).map (fun r => r.measured_at))).length →
      (compute_frequency_days db).1 =
        some (pyRound (pyMedian (dayGaps
          (wateringEventTimes db ((latestBy isRepotting db).map (fun r => r.measured_at))))))) ∧
    (∀ z : ℤ, (compute_frequency_days db).1 = some z →
      abs ((z : ℚ) - pyMedian (dayGaps
        (wateringEventTimes db ((latestBy isRepotting db).map (fun r => r.measured_at))))) ≤
          1/2) ∧
    compute_frequency_days exFrequencyDb = (some 5, 3) := by
  refine ⟨?_, ?_, ?_, ?_⟩
  · intro h
    simp only [compute_frequency_days]
    rw [if_pos h]
  · intro h2
    have hs := wateringEventTimes_sorted db ((latestBy isRepotting db).map (fun r => r.measured_at))
    have hne := dayGaps_ne_nil _ hs h2
    simp only [compute_frequency_days]
    rw [if_neg (by omega), if_neg hne]
  · intro z hz
    simp only [compute_frequency_days] at hz
    split at hz
    · cases hz
    · split at hz
      · cases hz
      · have hz2 := Option.some.inj hz
        subst hz2
        exact pyRound_nearest _
  · norm_num [compute_frequency_days, wateringEventTimes, dayGaps, pyMedian, pyRound,
      latestBy, latestStep, isRepotting, isLooseWatering, looseRowAt, exFrequencyDb,
      List.insertionSort, List.orderedInsert]
    intro h
    exact List.noConfusion h

/-- C7 witness: the day-0/3/10 scenario instantiates the rounded-median
equation. -/
theorem c7_witness :
    (compute_frequency_days exFrequencyDb).1 =
      some (pyRound (pyMedian (dayGaps
        (wateringEventTimes exFrequencyDb
          ((latestBy isRepotting exFrequencyDb).map (fun r => r.measured_at)))))) :=
  (c7_frequency_estimator exFrequencyDb).2.1 (by decide)

/-- C8: the claimed projection can never be produced.  The frequency step
of `PlantsList.fetch_all` binds `freq_days` to the pair returned by
`compute_frequency_days` and compares it with the integer 0, which raises
an uncaught `TypeError`, aborting the listing before any next-watering
date is computed; when `compute_frequency_days` itself raises, the guard
short-circuits and `next_watering_at` stays unset.  So for every database
the step either raises or yields no date — in particular at the failing
input of watering events at days 0, 3, 10, where a frequency (5 days,
3 events) is genuinely computed and the guard is genuinely reached. -/
theorem c8_projection_unreachable :
    (∀ db : List Row, fetch_all_next_watering db false = Except.error ()) ∧
    (∀ db : List Row, fetch_all_next_watering db true = Except.ok none) ∧
    compute_frequency_days exFrequencyDb = (some 5, 3) ∧
    fetch_all_next_watering exFrequencyDb false = Except.error () := by
  refine ⟨fun db => rfl, fun db => rfl, ?_, rfl⟩
  norm_num [compute_frequency_days, wateringEventTimes, dayGaps, pyMedian, pyRound,
    latestBy, latestStep, isRepotting, isLooseWatering, looseRowAt, exFrequencyDb,
    List.insertionSort, List.orderedInsert]
  intro h
  exact List.noConfusion h

/-- C9 counterexample: when the Plant Bound Maintainer step raises
(`bound_fault`), the write path still commits the inserted measurement
with the old bounds — the claimed all-or-nothing rollback does not cover
this step; the second conjunct shows the bounds a fault-free run would
have written, so the committed state is a visible partial write. -/
theorem c9_counterexample :
    measurement_write_path
        { rows := [], min_dry_weight_g := some 80, max_water_weight_g := some 20 }
        exStrictRow (some 10) (some 50)
        { derive_fault := false, loss_fault := false, insert_fault := false,
          bound_fault := true } =
      WriteOutcome.committed
        { rows := [exStrictRow], min_dry_weight_g := some 80,
          max_water_weight_g := some 20 } ∧
    measurement_write_path
        { rows := [], min_dry_weight_g := some 80, max_water_weight_g := some 20 }
        exStrictRow (some 10) (some 50)
        { derive_fault := false, loss_fault := false, insert_fault := false,
          bound_fault := false } =
      WriteOutcome.committed
        { rows := [exStrictRow], min_dry_weight_g := some 10,
          max_water_weight_g := some 50 } := by decide

/-- C9 (amended): an exception in the derive, loss or persist step rolls
the whole unit back (the pre-transaction state stays visible); but an
exception inside the Plant Bound Maintainer is caught and swallowed, so
the measurement insert still commits with stale plant bounds; only a
fully fault-free run commits the insert together with the recomputed
bounds. -/
theorem c9_write_path_transactionality (s : PlantState) (nr : Row)
    (cm cM : Option ℤ) (f : StepFaults) :
    (f.derive_fault = true ∨ f.loss_fault = true ∨ f.insert_fault = true →
      measurement_write_path s nr cm cM f = WriteOutcome.rolled_back s) ∧
    (f.derive_fault = false → f.loss_fault = false → f.insert_fault = false →
      f.bound_fault = true →
      measurement_write_path s nr cm cM f =
        WriteOutcome.committed
          { rows := s.rows ++ [nr], min_dry_weight_g := s.min_dry_weight_g,
            max_water_weight_g := s.max_water_weight_g }) ∧
    (f.derive_fault = false → f.loss_fault = false → f.insert_fault = false →
      f.bound_fault = false →
      measurement_write_path s nr cm cM f =
        WriteOutcome.committed
          { rows := s.rows ++ [nr],
            min_dry_weight_g := (boundMaintainerBounds (s.rows ++ [nr]) cm cM).1,
            max_water_weight_g := (boundMaintainerBounds (s.rows ++ [nr]) cm cM).2 }) := by
  refine ⟨?_, ?_, ?_⟩
  · intro h
    unfold measurement_write_path
    rcases h with h | h | h <;> simp [h]
  · intro h1 h2 h3 h4
    unfold measurement_write_path
    simp [h1, h2, h3, h4]
  · intro h1 h2 h3 h4
    unfold measurement_write_path
    simp [h1, h2, h3, h4]

/-- C9 witness: a derive-step exception rolls back, leaving the loaded
state untouched. -/
theorem c9_witness :
    measurement_write_path
        { rows := [], min_dry_weight_g := some 80, max_water_weight_g := some 20 }
        exStrictRow (some 10) (some 50)
        { derive_fault := true, loss_fault := false, insert_fault := false,
          bound_fault := false } =
      WriteOutcome.rolled_back
        { rows := [], min_dry_weight_g := some 80, max_water_weight_g := some 20 } :=
  (c9_write_path_transactionality
    { rows := [], min_dry_weight_g := some 80, max_water_weight_g := some 20 }
    exStrictRow (some 10) (some 50)
    { derive_fault := true, loss_fault := false, insert_fault := false,
      bound_fault := false }).1 (Or.inl rfl)

end AquaWeight
